import Mathlib

/-!
Shallow embedding of the per-layer composition engine of
`services/surfaceflinger` (files `LayerBase.cpp` and `Layer.h`):
the double-buffered transaction state, its mutators, the commit step
`doTransaction`, the geometry computations (`computeBounds`,
`computeCrop`), the hardware-composer binding `setGeometry`, the
visibility observer `isVisible`, the client surface handout
`getSurface`, and the frame-latch coordinator.

C++ machine integers are modelled as `Nat` with explicit `% 2^w`
truncation where the source performs 32-bit or 8-bit arithmetic, and
C++ `float` arithmetic is modelled exactly over `ℚ`.
-/

namespace SurfaceFlinger

/-- Embeds `LayerBase::eTransactionNeeded`: bit stored in `mTransactionFlags`.
Modelled from the spec: the constant lives in `LayerBase.h`, which is not
part of the sources; only the bit's distinctness matters. -/
def eTransactionNeeded : Nat := 1

/-- Embeds `LayerBase::eDontUpdateGeometryState`: `doTransaction` input flag that
suppresses folding `requested` into `active`. Modelled from the spec: the
constant lives in `LayerBase.h`, which is not part of the sources. -/
def eDontUpdateGeometryState : Nat := 1

/-- Embeds `LayerBase::eVisibleRegion`: `doTransaction` output flag requesting a
visible-region recompute. Modelled from the spec: the constant lives in
`LayerBase.h`, which is not part of the sources. -/
def eVisibleRegion : Nat := 2

/-- Embeds `layer_state_t::eLayerHidden`: the hidden bit of `State::flags`.
Modelled from the spec: the constant lives in `LayerState.h`, which is
not part of the sources. -/
def eLayerHidden : Nat := 1

/-- Embeds `ISurfaceComposerClient::eHidden` creation flag. Modelled from the
spec: the constant lives outside the sources. -/
def eHidden : Nat := 4

/-- Embeds `ISurfaceComposerClient::eNonPremultiplied` creation flag. Modelled
from the spec: the constant lives outside the sources. -/
def eNonPremultiplied : Nat := 256

/-- Embeds `Transform::SCALE` bit of the transform type classification.
Modelled from the spec: `Transform.h` is not part of the sources. -/
def SCALE : Nat := 4

/-- Embeds `Transform::ROT_INVALID` orientation flag (non-90°-aligned rotation).
Modelled from the spec: `Transform.h` is not part of the sources. -/
def ROT_INVALID : Nat := 128

/-- Embeds `NATIVE_WINDOW_TRANSFORM_FLIP_H`. Modelled from the spec: the
constant lives outside the sources. -/
def TRANSFORM_FLIP_H : Nat := 1

/-- Embeds `NATIVE_WINDOW_TRANSFORM_FLIP_V`. Modelled from the spec: the
constant lives outside the sources. -/
def TRANSFORM_FLIP_V : Nat := 2

/-- Embeds `NATIVE_WINDOW_TRANSFORM_ROT_90`. Modelled from the spec: the
constant lives outside the sources. -/
def TRANSFORM_ROT_90 : Nat := 4

/-- Embeds `HWC_BLENDING_NONE` (blending disabled). Modelled from the spec:
the constant lives outside the sources. -/
def HWC_BLENDING_NONE : Nat := 256

/-- Embeds `HWC_BLENDING_PREMULT`. Modelled from the spec: the constant lives
outside the sources. -/
def HWC_BLENDING_PREMULT : Nat := 261

/-- Embeds `HWC_BLENDING_COVERAGE`. Modelled from the spec: the constant lives
outside the sources. -/
def HWC_BLENDING_COVERAGE : Nat := 1029

/-- The 32-bit truncation of a natural number. -/
def trunc32 (n : Nat) : Nat := n % 4294967296

/-- The 8-bit truncation of a natural number. -/
def trunc8 (n : Nat) : Nat := n % 256

/-- Embeds `ui::Rect`: an axis-aligned rectangle with `int32_t` edges.
Modelled from the spec: `Rect.h`/`Rect.cpp` are not part of the sources;
the fields are forced by every use in `LayerBase.cpp`. -/
structure Rect where
  left : Int
  top : Int
  right : Int
  bottom : Int
deriving DecidableEq, Repr

/-- Embeds `Rect::width()`. -/
def Rect.width (r : Rect) : Int := r.right - r.left

/-- Embeds `Rect::height()`. -/
def Rect.height (r : Rect) : Int := r.bottom - r.top

/-- Embeds `Rect::isEmpty()`: degenerate (zero or negative extent) rectangle.
Modelled from the spec: degenerate geometry is treated as "no effective
crop". -/
def Rect.isEmpty (r : Rect) : Bool := r.width ≤ 0 ∨ r.height ≤ 0

/-- Embeds `Rect::makeInvalid()` produces `(0, 0, -1, -1)`. Modelled from the
spec: `Rect.cpp` is not part of the sources. -/
def Rect.invalid : Rect := ⟨0, 0, -1, -1⟩

/-- The rectangle `Rect(w, h)` spanning `(0,0)`..`(w,h)`. -/
def Rect.ofSize (w h : Int) : Rect := ⟨0, 0, w, h⟩

/-- Embeds `Rect::intersect(with, result)`: the written result (callers in
`computeCrop` ignore the boolean). Modelled from the spec: `Rect.cpp` is
not part of the sources; intersection is the coordinate-wise max/min. -/
def Rect.intersectRect (r s : Rect) : Rect :=
  ⟨max r.left s.left, max r.top s.top, min r.right s.right, min r.bottom s.bottom⟩

/-- Embeds `Rect::transform(xform, width, height)`: apply HAL flip/rot-90 bits
inside a `width × height` window. Modelled from the spec: `Rect.cpp` is
not part of the sources; step 4 of §4.3 describes the 90°-rotation
swap. -/
def Rect.transformHal (r : Rect) (xform : Nat) (w h : Int) : Rect :=
  let r1 := if xform &&& TRANSFORM_FLIP_H ≠ 0 then
      Rect.mk (w - r.right) r.top (w - r.left) r.bottom else r
  let r2 := if xform &&& TRANSFORM_FLIP_V ≠ 0 then
      Rect.mk r1.left (h - r1.bottom) r1.right (h - r1.top) else r1
  if xform &&& TRANSFORM_ROT_90 ≠ 0 then
    Rect.mk (h - r2.bottom) r2.left (h - r2.top) r2.right else r2

/-- Ceiling of a rational (`ceilf` over the exact value). -/
def ratCeil (q : ℚ) : Int := ⌈q⌉

/-- Round-to-nearest as `floorf(x + 0.5f)`, used by the transform's
bounding-box rounding. -/
def ratRound (q : ℚ) : Int := ⌊q + 1/2⌋

/-- Embeds `ui::Transform`: a 2×2 linear map plus a translation, the layout set
by `Transform::set(a, b, c, d)` / `Transform::set(tx, ty)`. Modelled from
the spec (§3: "transform (2×2 linear map + translation)"):
`Transform.h`/`Transform.cpp` are not part of the sources. -/
structure Transform where
  a : ℚ
  b : ℚ
  c : ℚ
  d : ℚ
  tx : ℚ
  ty : ℚ
deriving DecidableEq, Repr

/-- The identity transform (default construction). -/
def Transform.ident : Transform := ⟨1, 0, 0, 1, 0, 0⟩

/-- Embeds `Transform::set(tx, ty)`: replace the translation only. -/
def Transform.setTranslation (t : Transform) (x y : ℚ) : Transform :=
  { t with tx := x, ty := y }

/-- Embeds `Transform::set(a, b, c, d)`: replace the 2×2 linear part only. -/
def Transform.setLinear (t : Transform) (a b c d : ℚ) : Transform :=
  { t with a := a, b := b, c := c, d := d }

/-- Image of a point: `x' = a·x + b·y + tx`, `y' = c·x + d·y + ty`. -/
def Transform.apply (t : Transform) (x y : ℚ) : ℚ × ℚ :=
  (t.a * x + t.b * y + t.tx, t.c * x + t.d * y + t.ty)

/-- Embeds `Transform::transform(Rect)`: rounded bounding box of the images of
the four corners. Modelled from the spec: `Transform.cpp` is not part of
the sources. -/
def Transform.transformRect (t : Transform) (r : Rect) : Rect :=
  let lt := t.apply r.left r.top
  let rt := t.apply r.right r.top
  let lb := t.apply r.left r.bottom
  let rb := t.apply r.right r.bottom
  Rect.mk
    (ratRound (min (min lt.1 rt.1) (min lb.1 rb.1)))
    (ratRound (min (min lt.2 rt.2) (min lb.2 rb.2)))
    (ratRound (max (max lt.1 rt.1) (max lb.1 rb.1)))
    (ratRound (max (max lt.2 rt.2) (max lb.2 rb.2)))

/-- Embeds `Transform::inverse()`: exact 2×2 inverse composed with the negated
translation. Modelled from the spec: `Transform.cpp` is not part of the
sources (`ℚ` division by a zero determinant yields `0`). -/
def Transform.inverse (t : Transform) : Transform :=
  let det := t.a * t.d - t.b * t.c
  let ia := t.d / det
  let ic := -t.c / det
  let ib := -t.b / det
  let id := t.a / det
  ⟨ia, ib, ic, id, -(t.tx * ia + t.ty * ib), -(t.tx * ic + t.ty * id)⟩

/-- Whether the 2×2 part fails to map axis-aligned rectangles to
axis-aligned rectangles (a skew or a non-90° rotation). Modelled from the
spec (§4.2 of the committer: "the transform does not preserve
axis-aligned rectangles"). -/
def Transform.rotInvalid (t : Transform) : Bool :=
  ¬((t.b = 0 ∧ t.c = 0) ∨ (t.a = 0 ∧ t.d = 0))

/-- Embeds `Transform::preserveRects()`. Modelled from the spec:
`Transform.cpp` is not part of the sources. -/
def Transform.preserveRects (t : Transform) : Bool := !t.rotInvalid

/-- Whether the 2×2 part scales lengths (some coefficient magnitude is
not one). Modelled from the spec ("any non-rigid transform"). -/
def Transform.scaleBit (t : Transform) : Bool :=
  if t.b = 0 ∧ t.c = 0 then ¬(|t.a| = 1 ∧ |t.d| = 1)
  else if t.a = 0 ∧ t.d = 0 then ¬(|t.b| = 1 ∧ |t.c| = 1)
  else false

/-- Whether the rigid part includes a rotation (a 90° factor or a
point reflection). Modelled from the spec: `Transform.cpp` is not part
of the sources. -/
def Transform.rotateBit (t : Transform) : Bool :=
  if t.b = 0 ∧ t.c = 0 then t.a < 0 ∧ t.d < 0
  else if t.a = 0 ∧ t.d = 0 then true
  else false

/-- Embeds `Transform::getType()`: the TRANSLATE/ROTATE/SCALE/UNKNOWN type
classification bits. Modelled from the spec ("type classification is
'scale' or higher (i.e., any non-rigid transform)"): `Transform.cpp` is
not part of the sources. -/
def Transform.getType (t : Transform) : Nat :=
  (if t.tx ≠ 0 ∨ t.ty ≠ 0 then 1 else 0) |||
  (if t.rotateBit then 2 else 0) |||
  (if t.scaleBit then SCALE else 0) |||
  (if t.rotInvalid then 8 else 0)

/-- Embeds `Transform::getOrientation()`: the HAL flip/rot-90 orientation
component, or `ROT_INVALID` for a non-90°-aligned rotation. Modelled from
the spec (§4.4 unsupported-rotation detection): `Transform.cpp` is not
part of the sources. -/
def Transform.getOrientation (t : Transform) : Nat :=
  if t.b = 0 ∧ t.c = 0 then
    (if t.a < 0 then TRANSFORM_FLIP_H else 0) |||
    (if t.d < 0 then TRANSFORM_FLIP_V else 0)
  else if t.a = 0 ∧ t.d = 0 then
    TRANSFORM_ROT_90 |||
    (if t.b > 0 then TRANSFORM_FLIP_V else 0) |||
    (if t.c > 0 then TRANSFORM_FLIP_H else 0)
  else ROT_INVALID

/-- A `Region` as a set of rectangles; only construction, equality and
emptiness are exercised by the embedded code. -/
def Region := List Rect
deriving instance DecidableEq for Region

/-- The empty region. -/
def Region.empty : Region := []

/-- Embeds `LayerBase::State::Geometry` — width, height and crop (`w` and `h`
are `uint32_t` in the source; values are kept 32-bit by the setters). -/
structure Geometry where
  w : Nat
  h : Nat
  crop : Rect
deriving DecidableEq, Repr

/-- Embeds `LayerBase::State`: one snapshot of the double-buffered layer
state. -/
structure State where
  active : Geometry
  requested : Geometry
  z : Nat
  alpha : Nat
  flags : Nat
  layerStack : Nat
  sequence : Nat
  transform : Transform
  transparentRegion : Region
deriving DecidableEq

/-- The `LayerBase` object: the pending (`mCurrentState`) and committed
(`mDrawingState`) snapshots plus the non-snapshot members read or
written by the embedded functions. `mOpaque` stands for the virtual
`isOpaque()` result (its override lives outside the sources). -/
structure LayerBase where
  mCurrentState : State
  mDrawingState : State
  mTransactionFlags : Nat
  contentDirty : Bool
  mNeedsFiltering : Bool
  mFiltering : Bool
  mPremultipliedAlpha : Bool
  mOpaque : Bool
deriving DecidableEq

namespace LayerBase

/-- Embeds `LayerBase::initStates(w, h, flags)` on a freshly constructed layer
(default members as set by the `LayerBase` constructor, default
`isOpaque()` true). -/
def mkLayer (w h flags : Nat) : LayerBase :=
  let layerFlags : Nat := if flags &&& eHidden ≠ 0 then eLayerHidden else 0
  let g : Geometry := { w := trunc32 w, h := trunc32 h, crop := Rect.invalid }
  let st : State :=
    { active := g, requested := g, z := 0, alpha := 255, flags := layerFlags,
      layerStack := 0, sequence := 0,
      transform := Transform.ident.setTranslation 0 0,
      transparentRegion := Region.empty }
  { mCurrentState := st, mDrawingState := st, mTransactionFlags := 0,
    contentDirty := false, mNeedsFiltering := false, mFiltering := false,
    mPremultipliedAlpha := !(flags &&& eNonPremultiplied ≠ 0),
    mOpaque := true }

/-- Embeds `LayerBase::setTransactionFlags(flags)`: atomic OR, returning the
previous value. -/
def setTransactionFlags (l : LayerBase) (flags : Nat) : Nat × LayerBase :=
  (l.mTransactionFlags, { l with mTransactionFlags := l.mTransactionFlags ||| flags })

/-- Embeds `LayerBase::getTransactionFlags(flags)`: atomic fetch-and-clear of
the given bits, returning the bits that were set. -/
def getTransactionFlags (l : LayerBase) (flags : Nat) : Nat × LayerBase :=
  (l.mTransactionFlags &&& flags,
   { l with mTransactionFlags := l.mTransactionFlags &&& (4294967295 ^^^ flags) })

/-- Embeds `LayerBase::requestTransaction()`. -/
def requestTransaction (l : LayerBase) : Bool × LayerBase :=
  let p := l.setTransactionFlags eTransactionNeeded
  ((p.1 &&& eTransactionNeeded) = 0, p.2)

/-- Embeds `LayerBase::setPosition(x, y)`. -/
def setPosition (l : LayerBase) (x y : ℚ) : Bool × LayerBase :=
  if l.mCurrentState.transform.tx = x ∧ l.mCurrentState.transform.ty = y then
    (false, l)
  else
    let s := l.mCurrentState
    let s := { s with sequence := trunc32 (s.sequence + 1),
                      transform := s.transform.setTranslation x y }
    (true, (requestTransaction { l with mCurrentState := s }).2)

/-- Embeds `LayerBase::setLayer(z)`. -/
def setLayer (l : LayerBase) (z : Nat) : Bool × LayerBase :=
  let z := trunc32 z
  if l.mCurrentState.z = z then
    (false, l)
  else
    let s := l.mCurrentState
    let s := { s with sequence := trunc32 (s.sequence + 1), z := z }
    (true, (requestTransaction { l with mCurrentState := s }).2)

/-- Embeds `LayerBase::setSize(w, h)`: updates `requested` only and does not
touch `sequence`. -/
def setSize (l : LayerBase) (w h : Nat) : Bool × LayerBase :=
  let w := trunc32 w
  let h := trunc32 h
  if l.mCurrentState.requested.w = w ∧ l.mCurrentState.requested.h = h then
    (false, l)
  else
    let s := l.mCurrentState
    let s := { s with requested := { s.requested with w := w, h := h } }
    (true, (requestTransaction { l with mCurrentState := s }).2)

/-- Embeds `LayerBase::setAlpha(alpha)` (the argument is `uint8_t`). -/
def setAlpha (l : LayerBase) (alpha : Nat) : Bool × LayerBase :=
  let alpha := trunc8 alpha
  if l.mCurrentState.alpha = alpha then
    (false, l)
  else
    let s := l.mCurrentState
    let s := { s with sequence := trunc32 (s.sequence + 1), alpha := alpha }
    (true, (requestTransaction { l with mCurrentState := s }).2)

/-- The `layer_state_t::matrix22_t` argument of `setMatrix`. -/
structure Matrix22 where
  dsdx : ℚ
  dsdy : ℚ
  dtdx : ℚ
  dtdy : ℚ
deriving DecidableEq, Repr

/-- Embeds `LayerBase::setMatrix(matrix)`: unconditional — no comparison with
the pending value. -/
def setMatrix (l : LayerBase) (m : Matrix22) : Bool × LayerBase :=
  let s := l.mCurrentState
  let s := { s with sequence := trunc32 (s.sequence + 1),
                    transform := s.transform.setLinear m.dsdx m.dsdy m.dtdx m.dtdy }
  (true, (requestTransaction { l with mCurrentState := s }).2)

/-- Embeds `LayerBase::setTransparentRegionHint(transparent)`: unconditional —
no comparison with the pending value. -/
def setTransparentRegionHint (l : LayerBase) (transparent : Region) : Bool × LayerBase :=
  let s := l.mCurrentState
  let s := { s with sequence := trunc32 (s.sequence + 1),
                    transparentRegion := transparent }
  (true, (requestTransaction { l with mCurrentState := s }).2)

/-- Embeds `LayerBase::setFlags(flags, mask)` (both arguments are `uint8_t`;
the stored field is `uint32_t`, so `~mask` keeps the high bits). -/
def setFlags (l : LayerBase) (flags mask : Nat) : Bool × LayerBase :=
  let fv := trunc8 flags
  let m := trunc8 mask
  let newFlags := (l.mCurrentState.flags &&& (4294967295 ^^^ m)) ||| (fv &&& m)
  if l.mCurrentState.flags = newFlags then
    (false, l)
  else
    let s := l.mCurrentState
    let s := { s with sequence := trunc32 (s.sequence + 1), flags := newFlags }
    (true, (requestTransaction { l with mCurrentState := s }).2)

/-- Embeds `LayerBase::setCrop(crop)`. -/
def setCrop (l : LayerBase) (crop : Rect) : Bool × LayerBase :=
  if l.mCurrentState.requested.crop = crop then
    (false, l)
  else
    let s := l.mCurrentState
    let s := { s with sequence := trunc32 (s.sequence + 1),
                      requested := { s.requested with crop := crop } }
    (true, (requestTransaction { l with mCurrentState := s }).2)

/-- Embeds `LayerBase::setLayerStack(layerStack)`. -/
def setLayerStack (l : LayerBase) (layerStack : Nat) : Bool × LayerBase :=
  let layerStack := trunc32 layerStack
  if l.mCurrentState.layerStack = layerStack then
    (false, l)
  else
    let s := l.mCurrentState
    let s := { s with sequence := trunc32 (s.sequence + 1),
                      layerStack := layerStack }
    (true, (requestTransaction { l with mCurrentState := s }).2)

/-- Embeds `LayerBase::commitTransaction()`. -/
def commitTransaction (l : LayerBase) : LayerBase :=
  { l with mDrawingState := l.mCurrentState }

/-- Embeds `LayerBase::doTransaction(flags)`: fold `requested` into `active`
unless suppressed, accumulate invalidation flags, recompute the
filtering requirement when `sequence` moved, then commit pending into
committed. Returns the accumulated flags and the updated layer. -/
def doTransaction (l : LayerBase) (flags : Nat) : Nat × LayerBase :=
  let front := l.mDrawingState
  let l1 :=
    if flags &&& eDontUpdateGeometryState ≠ 0 then l
    else { l with mCurrentState :=
            { l.mCurrentState with active := l.mCurrentState.requested } }
  let temp := l1.mCurrentState
  let flags1 := if front.active ≠ temp.active then flags ||| eVisibleRegion else flags
  let seqChanged := temp.sequence ≠ front.sequence
  let flags2 := if seqChanged then flags1 ||| eVisibleRegion else flags1
  let l2 :=
    if seqChanged then
      { l1 with contentDirty := true,
                mNeedsFiltering :=
                  (!temp.transform.preserveRects) ||
                  decide (SCALE ≤ temp.transform.getType) }
    else l1
  (flags2, commitTransaction l2)

/-- Embeds `LayerBase::isVisible()`: committed flags without the hidden bit and
a nonzero committed alpha. -/
def isVisible (l : LayerBase) : Bool :=
  (l.mDrawingState.flags &&& eLayerHidden = 0 : Bool) && (l.mDrawingState.alpha ≠ 0 : Bool)

/-- Embeds `LayerBase::computeBounds()`: the active rectangle, intersected with
the active crop when that crop is non-empty. -/
def computeBounds (l : LayerBase) : Rect :=
  let s := l.mDrawingState
  let win := Rect.ofSize s.active.w s.active.h
  if !s.active.crop.isEmpty then win.intersectRect s.active.crop else win

/-- Embeds `LayerBase::getContentCrop()`: regular layers use their active area. -/
def getContentCrop (l : LayerBase) : Rect :=
  Rect.ofSize l.mDrawingState.active.w l.mDrawingState.active.h

/-- Embeds `LayerBase::getContentTransform()`: regular layers have none. -/
def getContentTransform (l : LayerBase) : Nat := 0

end LayerBase

/-- The slice of the `DisplayDevice` collaborator the embedded code
reads: the projection transform, the viewport rectangle and the pixel
height. Modelled from the spec (§6): `DisplayDevice` is external. -/
structure DisplayDevice where
  transform : Transform
  viewport : Rect
  height : Nat
deriving DecidableEq

/-- The clipped window crop of `LayerBase::computeCrop`: the window-space
active crop transformed to layer-stack space, intersected with the
display viewport, transformed back by the inverse layer transform and
clamped to the window bounds. -/
def clippedWindowCrop (s : State) (viewport : Rect) : Rect :=
  let activeCrop := s.transform.transformRect s.active.crop
  let activeCrop := activeCrop.intersectRect viewport
  let activeCrop := s.transform.inverse.transformRect activeCrop
  activeCrop.intersectRect (Rect.ofSize s.active.w s.active.h)

/-- The `if (!activeCrop.isEmpty())` block of `LayerBase::computeCrop`:
rotate the clipped window crop into the buffer coordinate system and
shrink the content crop by the outward-rounded scaled insets. The
`float` scale arithmetic of the source is carried out exactly over `ℚ`. -/
def cropInsetStep (s : State) (crop : Rect) (contentTransform : Nat)
    (activeCrop : Rect) : Rect :=
  let invTransform0 := contentTransform
  let rot90 := invTransform0 &&& TRANSFORM_ROT_90 ≠ 0
  let invTransform :=
    if rot90 then invTransform0 ^^^ (TRANSFORM_FLIP_V ||| TRANSFORM_FLIP_H)
    else invTransform0
  let winWidth : Int := if rot90 then s.active.h else s.active.w
  let winHeight : Int := if rot90 then s.active.w else s.active.h
  let winCrop := activeCrop.transformHal invTransform s.active.w s.active.h
  let xScale : ℚ := (crop.width : ℚ) / (winWidth : ℚ)
  let yScale : ℚ := (crop.height : ℚ) / (winHeight : ℚ)
  let insetL := ratCeil ((winCrop.left : ℚ) * xScale)
  let insetT := ratCeil ((winCrop.top : ℚ) * yScale)
  let insetR := ratCeil (((winWidth - winCrop.right : Int) : ℚ) * xScale)
  let insetB := ratCeil (((winHeight - winCrop.bottom : Int) : ℚ) * yScale)
  Rect.mk (crop.left + insetL) (crop.top + insetT)
          (crop.right - insetR) (crop.bottom - insetB)

/-- The body of `LayerBase::computeCrop(hw)`, parametric in the virtual
`getContentCrop()` / `getContentTransform()` results (overridden by
`Layer`, whose translation unit is not part of the sources): start from
the content crop and, when the clipped window crop is non-empty, apply
`cropInsetStep` (the `if (!activeCrop.isEmpty())` block of the source). -/
def computeCropAux (s : State) (contentCrop : Rect) (contentTransform : Nat)
    (viewport : Rect) : Rect :=
  let crop := contentCrop
  let activeCrop := clippedWindowCrop s viewport
  if activeCrop.isEmpty then crop
  else cropInsetStep s crop contentTransform activeCrop

/-- Embeds `LayerBase::computeCrop(hw)` with `LayerBase`'s own virtuals. -/
def LayerBase.computeCrop (l : LayerBase) (hw : DisplayDevice) : Rect :=
  computeCropAux l.mDrawingState l.getContentCrop l.getContentTransform hw.viewport

/-- Coordinate-wise containment of rectangles (sub-rectangle). -/
def Rect.containedIn (r s : Rect) : Prop :=
  s.left ≤ r.left ∧ s.top ≤ r.top ∧ r.right ≤ s.right ∧ r.bottom ≤ s.bottom

/-- The hardware-composer per-layer descriptor written by `setGeometry`
(`HWComposer::HWCLayerInterface`). Modelled from the spec (§4.4):
`HWComposer` is external; `setDefaultState()` leaves the transform at 0
and blending disabled. -/
structure HWCLayer where
  transform : Nat
  blending : Nat
  frame : Rect
  crop : Rect
deriving DecidableEq

/-- Embeds `LayerBase::setGeometry(hw, layer)`: the descriptor produced for the
hardware path. -/
def LayerBase.setGeometry (l : LayerBase) (hw : DisplayDevice) : HWCLayer :=
  let s := l.mDrawingState
  let finalTransform := s.transform.getOrientation
  let t := if finalTransform &&& ROT_INVALID ≠ 0 then 0 else finalTransform
  let blending :=
    if !l.mOpaque ∨ s.alpha ≠ 255 then
      if l.mPremultipliedAlpha then HWC_BLENDING_PREMULT else HWC_BLENDING_COVERAGE
    else HWC_BLENDING_NONE
  let frame := (s.transform.transformRect l.computeBounds).intersectRect hw.viewport
  { transform := t, blending := blending,
    frame := hw.transform.transformRect frame,
    crop := l.computeCrop hw }

/-- Embeds `LayerBase::latchBuffer`: the base class has no buffer queue and
always returns an empty region. -/
def LayerBase.latchBuffer (l : LayerBase) : Region × LayerBase := (Region.empty, l)

/-- The `LayerBaseClient` members exercised by `getSurface`. The surface
handle is abstract. -/
structure LayerBaseClient where
  mHasSurface : Bool
  mClientSurfaceBinder : Option Nat
deriving DecidableEq

/-- Embeds `LayerBaseClient::getSurface()`: `LOG_ALWAYS_FATAL_IF(mHasSurface)`
aborts the process on a second call; otherwise the handle is handed out
and `mHasSurface` is set. An abort is modelled as `Except.error`. -/
def LayerBaseClient.getSurface (st : LayerBaseClient) :
    Except String (Nat × LayerBaseClient) :=
  if st.mHasSurface then
    Except.error "LayerBaseClient::getSurface() has already been called"
  else
    let s := 0
    Except.ok (s, { st with mHasSurface := true, mClientSurfaceBinder := some s })

/-- One produced buffer: an opaque pixel-content handle plus the
per-buffer metadata (crop, transform bits, timestamp) adopted on latch.
Modelled from the spec (§3 FrameQueue state): `Layer.cpp` is not part of
the sources. -/
structure Buffer where
  handle : Nat
  crop : Rect
  tbits : Nat
  timestamp : Int
deriving DecidableEq

/-- The FrameLatchCoordinator state of a buffer-backed `Layer`:
`mQueuedFrames` (declared in `Layer.h`), the produced-but-unlatched
buffers (newest first) and the adopted buffer with its metadata.
Modelled from the spec (§4.5): `Layer.cpp` is not part of the sources. -/
structure FrameQueue where
  mQueuedFrames : Nat
  produced : List Buffer
  mActiveBuffer : Option Buffer
  mCurrentCrop : Rect
  mCurrentTransform : Nat
  mCurrentTimestamp : Int
deriving DecidableEq

/-- The initial (Idle) frame-queue state. Modelled from the spec (§4.5). -/
def FrameQueue.init : FrameQueue :=
  { mQueuedFrames := 0, produced := [], mActiveBuffer := none,
    mCurrentCrop := Rect.invalid, mCurrentTransform := 0, mCurrentTimestamp := 0 }

/-- Embeds `Layer::onFrameAvailable()`: increments the pending counter and
records the newly produced buffer; nothing else. Modelled from the spec
(§4.5): `Layer.cpp` is not part of the sources. -/
def FrameQueue.onFrameAvailable (q : FrameQueue) (b : Buffer) : FrameQueue :=
  { q with mQueuedFrames := q.mQueuedFrames + 1, produced := b :: q.produced }

/-- Embeds `Layer::latchBuffer()`: a no-op returning an empty region when the
pending counter is zero; otherwise decrements the counter by exactly
one, adopts the newest produced buffer and its metadata, and discards
the older buffers' pixel content. Modelled from the spec (§4.5):
`Layer.cpp` is not part of the sources. -/
def FrameQueue.latchBuffer (q : FrameQueue) : Region × FrameQueue :=
  if q.mQueuedFrames = 0 then (Region.empty, q)
  else
    match q.produced with
    | [] => (Region.empty, { q with mQueuedFrames := q.mQueuedFrames - 1 })
    | b :: _ =>
      ([b.crop],
       { q with mQueuedFrames := q.mQueuedFrames - 1, produced := [],
                mActiveBuffer := some b, mCurrentCrop := b.crop,
                mCurrentTransform := b.tbits, mCurrentTimestamp := b.timestamp })

/-- Feed a list of produced buffers through `onFrameAvailable`, newest
last. -/
def FrameQueue.feed (q : FrameQueue) : List Buffer → FrameQueue
  | [] => q
  | b :: bs => (q.onFrameAvailable b).feed bs

/-! Concrete fixtures used by counterexamples and witnesses. -/

/-- A freshly created 100×100 layer with default flags. -/
def sample : LayerBase := LayerBase.mkLayer 100 100 0

/-- A layer whose pending sequence differs from its committed one
(an alpha mutation has fired since the last commit). -/
def sampleDirty : LayerBase := (sample.setAlpha 128).2

/-- If two layers share a committed snapshot they agree on `isVisible`. -/
theorem isVisible_ext (l l' : LayerBase)
    (h : l'.mDrawingState = l.mDrawingState) : l'.isVisible = l.isVisible := by
  simp [LayerBase.isVisible, h]

/-- ORing a bit in always leaves that bit set. -/
theorem lor_land_self (n m : Nat) : (n ||| m) &&& m = m := by
  apply Nat.eq_of_testBit_eq
  intro i
  simp only [Nat.testBit_and, Nat.testBit_or]
  cases m.testBit i <;> simp

/-- Masked flag replacement is idempotent. -/
theorem setFlags_merge_idem (fl f m : Nat) :
    (((fl &&& (4294967295 ^^^ m)) ||| (f &&& m)) &&& (4294967295 ^^^ m)) |||
      (f &&& m) = (fl &&& (4294967295 ^^^ m)) ||| (f &&& m) := by
  apply Nat.eq_of_testBit_eq
  intro i
  simp only [Nat.testBit_and, Nat.testBit_or, Nat.testBit_xor]
  cases h : m.testBit i <;> cases fl.testBit i <;> cases f.testBit i <;>
    cases (4294967295 : Nat).testBit i <;> simp

/-! C1 -/

/-- A concrete matrix argument for the C1 counterexample. -/
def c1mat : LayerBase.Matrix22 := ⟨2, 0, 0, 3⟩

/-- A layer whose pending 2×2 transform already equals `c1mat`. -/
def c1layer : LayerBase := (sample.setMatrix c1mat).2

/-- C1 is false as stated: `setMatrix` never compares against the
pending value. On a layer whose pending 2×2 transform already equals the
argument, `setMatrix` returns `true` again and bumps `sequence`, instead
of returning `false` with no other action. -/
theorem c1_counterexample :
    (c1layer.mCurrentState.transform.a = c1mat.dsdx ∧
     c1layer.mCurrentState.transform.b = c1mat.dsdy ∧
     c1layer.mCurrentState.transform.c = c1mat.dtdx ∧
     c1layer.mCurrentState.transform.d = c1mat.dtdy) ∧
    (c1layer.setMatrix c1mat).1 = true ∧
    (c1layer.setMatrix c1mat).2.mCurrentState.sequence ≠
      c1layer.mCurrentState.sequence := by
  decide

/-- C1 (amended): `setPosition`, `setLayer`, `setSize`, `setAlpha`,
`setFlags`, `setCrop` and `setLayerStack` return `false` and perform no
other action when the argument equals the current pending value, and a
second call with the same argument always returns `false`; `setMatrix`
and `setTransparentRegionHint` do not compare and always return `true`. -/
theorem c1_amended :
    (∀ (l : LayerBase) (x y : ℚ), l.mCurrentState.transform.tx = x →
      l.mCurrentState.transform.ty = y → l.setPosition x y = (false, l)) ∧
    (∀ (l : LayerBase) (z : Nat), l.mCurrentState.z = trunc32 z →
      l.setLayer z = (false, l)) ∧
    (∀ (l : LayerBase) (w h : Nat), l.mCurrentState.requested.w = trunc32 w →
      l.mCurrentState.requested.h = trunc32 h → l.setSize w h = (false, l)) ∧
    (∀ (l : LayerBase) (a : Nat), l.mCurrentState.alpha = trunc8 a →
      l.setAlpha a = (false, l)) ∧
    (∀ (l : LayerBase) (f m : Nat),
      l.mCurrentState.flags =
        (l.mCurrentState.flags &&& (4294967295 ^^^ trunc8 m)) |||
          (trunc8 f &&& trunc8 m) →
      l.setFlags f m = (false, l)) ∧
    (∀ (l : LayerBase) (c : Rect), l.mCurrentState.requested.crop = c →
      l.setCrop c = (false, l)) ∧
    (∀ (l : LayerBase) (ls : Nat), l.mCurrentState.layerStack = trunc32 ls →
      l.setLayerStack ls = (false, l)) ∧
    (∀ (l : LayerBase) (m : LayerBase.Matrix22), (l.setMatrix m).1 = true) ∧
    (∀ (l : LayerBase) (r : Region), (l.setTransparentRegionHint r).1 = true) ∧
    (∀ (l : LayerBase) (x y : ℚ),
      ((l.setPosition x y).2.setPosition x y).1 = false) ∧
    (∀ (l : LayerBase) (z : Nat), ((l.setLayer z).2.setLayer z).1 = false) ∧
    (∀ (l : LayerBase) (w h : Nat), ((l.setSize w h).2.setSize w h).1 = false) ∧
    (∀ (l : LayerBase) (a : Nat), ((l.setAlpha a).2.setAlpha a).1 = false) ∧
    (∀ (l : LayerBase) (f m : Nat),
      ((l.setFlags f m).2.setFlags f m).1 = false) ∧
    (∀ (l : LayerBase) (c : Rect), ((l.setCrop c).2.setCrop c).1 = false) ∧
    (∀ (l : LayerBase) (ls : Nat),
      ((l.setLayerStack ls).2.setLayerStack ls).1 = false) := by
  refine ⟨?_, ?_, ?_, ?_, ?_, ?_, ?_, ?_, ?_, ?_, ?_, ?_, ?_, ?_, ?_, ?_⟩
  · intro l x y hx hy
    simp [LayerBase.setPosition, hx, hy]
  · intro l z hz
    simp [LayerBase.setLayer, hz]
  · intro l w h hw hh
    simp [LayerBase.setSize, hw, hh]
  · intro l a ha
    simp [LayerBase.setAlpha, ha]
  · intro l f m hf
    simp [LayerBase.setFlags, ← hf]
  · intro l c hc
    simp [LayerBase.setCrop, hc]
  · intro l ls hl
    simp [LayerBase.setLayerStack, hl]
  · intro l m
    simp [LayerBase.setMatrix]
  · intro l r
    simp [LayerBase.setTransparentRegionHint]
  · intro l x y
    by_cases h : l.mCurrentState.transform.tx = x ∧ l.mCurrentState.transform.ty = y
    · simp [LayerBase.setPosition, h]
    · simp [LayerBase.setPosition, LayerBase.requestTransaction,
        LayerBase.setTransactionFlags, Transform.setTranslation, h]
  · intro l z
    by_cases h : l.mCurrentState.z = trunc32 z
    · simp [LayerBase.setLayer, h]
    · simp [LayerBase.setLayer, LayerBase.requestTransaction,
        LayerBase.setTransactionFlags, h]
  · intro l w h
    by_cases hc : l.mCurrentState.requested.w = trunc32 w ∧
        l.mCurrentState.requested.h = trunc32 h
    · simp [LayerBase.setSize, hc]
    · simp [LayerBase.setSize, LayerBase.requestTransaction,
        LayerBase.setTransactionFlags, hc]
  · intro l a
    by_cases h : l.mCurrentState.alpha = trunc8 a
    · simp [LayerBase.setAlpha, h]
    · simp [LayerBase.setAlpha, LayerBase.requestTransaction,
        LayerBase.setTransactionFlags, h]
  · intro l f m
    by_cases h : l.mCurrentState.flags =
        (l.mCurrentState.flags &&& (4294967295 ^^^ trunc8 m)) |||
          (trunc8 f &&& trunc8 m)
    · simp [LayerBase.setFlags, ← h]
    · simp only [LayerBase.setFlags, LayerBase.requestTransaction,
        LayerBase.setTransactionFlags]
      rw [if_neg h]
      simp [setFlags_merge_idem]
  · intro l c
    by_cases h : l.mCurrentState.requested.crop = c
    · simp [LayerBase.setCrop, h]
    · simp [LayerBase.setCrop, LayerBase.requestTransaction,
        LayerBase.setTransactionFlags, h]
  · intro l ls
    by_cases h : l.mCurrentState.layerStack = trunc32 ls
    · simp [LayerBase.setLayerStack, h]
    · simp [LayerBase.setLayerStack, LayerBase.requestTransaction,
        LayerBase.setTransactionFlags, h]

/-- C1 witness: the amended no-op contract evaluated on the fresh sample
layer, whose pending position is already `(0, 0)`. -/
theorem c1_witness : sample.setPosition 0 0 = (false, sample) :=
  c1_amended.1 sample 0 0 (by decide) (by decide)

/-! C2 -/

/-- C2 is false as stated: `setSize` on the fresh sample layer (whose
requested size is 100×100) returns `true` for a new size yet leaves the
pending `sequence` unchanged. -/
theorem c2_counterexample :
    (sample.setSize 50 60).1 = true ∧
    (sample.setSize 50 60).2.mCurrentState.sequence =
      sample.mCurrentState.sequence := by
  decide

/-- C2 (amended): every mutator that returns `true` marks a transaction
pending, and every one of them except `setSize` increments the pending
`sequence` by exactly one (as a 32-bit counter); `setSize` leaves
`sequence` unchanged, deferring the resize to the commit step. -/
theorem c2_amended :
    (∀ (l : LayerBase) (x y : ℚ), (l.setPosition x y).1 = true →
      (l.setPosition x y).2.mCurrentState.sequence =
        trunc32 (l.mCurrentState.sequence + 1) ∧
      (l.setPosition x y).2.mTransactionFlags &&& eTransactionNeeded ≠ 0) ∧
    (∀ (l : LayerBase) (z : Nat), (l.setLayer z).1 = true →
      (l.setLayer z).2.mCurrentState.sequence =
        trunc32 (l.mCurrentState.sequence + 1) ∧
      (l.setLayer z).2.mTransactionFlags &&& eTransactionNeeded ≠ 0) ∧
    (∀ (l : LayerBase) (a : Nat), (l.setAlpha a).1 = true →
      (l.setAlpha a).2.mCurrentState.sequence =
        trunc32 (l.mCurrentState.sequence + 1) ∧
      (l.setAlpha a).2.mTransactionFlags &&& eTransactionNeeded ≠ 0) ∧
    (∀ (l : LayerBase) (m : LayerBase.Matrix22), (l.setMatrix m).1 = true →
      (l.setMatrix m).2.mCurrentState.sequence =
        trunc32 (l.mCurrentState.sequence + 1) ∧
      (l.setMatrix m).2.mTransactionFlags &&& eTransactionNeeded ≠ 0) ∧
    (∀ (l : LayerBase) (r : Region), (l.setTransparentRegionHint r).1 = true →
      (l.setTransparentRegionHint r).2.mCurrentState.sequence =
        trunc32 (l.mCurrentState.sequence + 1) ∧
      (l.setTransparentRegionHint r).2.mTransactionFlags &&&
        eTransactionNeeded ≠ 0) ∧
    (∀ (l : LayerBase) (f m : Nat), (l.setFlags f m).1 = true →
      (l.setFlags f m).2.mCurrentState.sequence =
        trunc32 (l.mCurrentState.sequence + 1) ∧
      (l.setFlags f m).2.mTransactionFlags &&& eTransactionNeeded ≠ 0) ∧
    (∀ (l : LayerBase) (c : Rect), (l.setCrop c).1 = true →
      (l.setCrop c).2.mCurrentState.sequence =
        trunc32 (l.mCurrentState.sequence + 1) ∧
      (l.setCrop c).2.mTransactionFlags &&& eTransactionNeeded ≠ 0) ∧
    (∀ (l : LayerBase) (ls : Nat), (l.setLayerStack ls).1 = true →
      (l.setLayerStack ls).2.mCurrentState.sequence =
        trunc32 (l.mCurrentState.sequence + 1) ∧
      (l.setLayerStack ls).2.mTransactionFlags &&& eTransactionNeeded ≠ 0) ∧
    (∀ (l : LayerBase) (w h : Nat), (l.setSize w h).1 = true →
      (l.setSize w h).2.mCurrentState.sequence = l.mCurrentState.sequence ∧
      (l.setSize w h).2.mTransactionFlags &&& eTransactionNeeded ≠ 0) := by
  refine ⟨?_, ?_, ?_, ?_, ?_, ?_, ?_, ?_, ?_⟩
  · intro l x y hr
    by_cases h : l.mCurrentState.transform.tx = x ∧ l.mCurrentState.transform.ty = y
    · simp [LayerBase.setPosition, h] at hr
    · simp [LayerBase.setPosition, LayerBase.requestTransaction,
        LayerBase.setTransactionFlags, h, lor_land_self, eTransactionNeeded]
  · intro l z hr
    by_cases h : l.mCurrentState.z = trunc32 z
    · simp [LayerBase.setLayer, h] at hr
    · simp [LayerBase.setLayer, LayerBase.requestTransaction,
        LayerBase.setTransactionFlags, h, lor_land_self, eTransactionNeeded]
  · intro l a hr
    by_cases h : l.mCurrentState.alpha = trunc8 a
    · simp [LayerBase.setAlpha, h] at hr
    · simp [LayerBase.setAlpha, LayerBase.requestTransaction,
        LayerBase.setTransactionFlags, h, lor_land_self, eTransactionNeeded]
  · intro l m hr
    simp [LayerBase.setMatrix, LayerBase.requestTransaction,
      LayerBase.setTransactionFlags, lor_land_self, eTransactionNeeded]
  · intro l r hr
    simp [LayerBase.setTransparentRegionHint, LayerBase.requestTransaction,
      LayerBase.setTransactionFlags, lor_land_self, eTransactionNeeded]
  · intro l f m hr
    by_cases h : l.mCurrentState.flags =
        (l.mCurrentState.flags &&& (4294967295 ^^^ trunc8 m)) |||
          (trunc8 f &&& trunc8 m)
    · simp [LayerBase.setFlags, ← h] at hr
    · simp only [LayerBase.setFlags, LayerBase.requestTransaction,
        LayerBase.setTransactionFlags]
      rw [if_neg h]
      simp [lor_land_self, eTransactionNeeded]
  · intro l c hr
    by_cases h : l.mCurrentState.requested.crop = c
    · simp [LayerBase.setCrop, h] at hr
    · simp [LayerBase.setCrop, LayerBase.requestTransaction,
        LayerBase.setTransactionFlags, h, lor_land_self, eTransactionNeeded]
  · intro l ls hr
    by_cases h : l.mCurrentState.layerStack = trunc32 ls
    · simp [LayerBase.setLayerStack, h] at hr
    · simp [LayerBase.setLayerStack, LayerBase.requestTransaction,
        LayerBase.setTransactionFlags, h, lor_land_self, eTransactionNeeded]
  · intro l w h hr
    by_cases hc : l.mCurrentState.requested.w = trunc32 w ∧
        l.mCurrentState.requested.h = trunc32 h
    · simp [LayerBase.setSize, hc] at hr
    · simp [LayerBase.setSize, LayerBase.requestTransaction,
        LayerBase.setTransactionFlags, hc, lor_land_self, eTransactionNeeded]

/-- C2 witness: `setAlpha 7` fires on the fresh sample layer (pending
alpha 255), advancing `sequence` from 0 to 1 and marking a transaction
pending. -/
theorem c2_witness :
    (sample.setAlpha 7).2.mCurrentState.sequence =
      trunc32 (sample.mCurrentState.sequence + 1) ∧
    (sample.setAlpha 7).2.mTransactionFlags &&& eTransactionNeeded ≠ 0 :=
  c2_amended.2.2.1 sample 7 (by decide)

/-! C3 -/

/-- A layer reached by `setSize` followed by a commit that was asked to
preserve geometry (`eDontUpdateGeometryState`): pending equals committed,
but the pending `active` still differs from the pending `requested`. -/
def c3layer : LayerBase :=
  ((((LayerBase.mkLayer 1 1 0).setSize 2 1).2.getTransactionFlags
      eTransactionNeeded).2.doTransaction eDontUpdateGeometryState).2

/-- C3 is false as stated: on `c3layer` the pending snapshot equals the
committed one and no mutator has fired since the commit, yet
`doTransaction 0` folds `requested` into `active`, reports the
visible-region bit, and rewrites the committed snapshot. -/
theorem c3_counterexample :
    c3layer.mCurrentState = c3layer.mDrawingState ∧
    (0 : Nat) &&& eVisibleRegion = 0 ∧
    (c3layer.doTransaction 0).1 &&& eVisibleRegion ≠ 0 ∧
    (c3layer.doTransaction 0).2.mDrawingState ≠ c3layer.mDrawingState := by
  decide

/-- C3 (amended): if the pending snapshot equals the committed one and
the pending `active` geometry already equals the pending `requested`
geometry, then `doTransaction` with input flags not containing the
visible-region bit returns flags with no visible-region bit and leaves
the committed snapshot unchanged. -/
theorem c3_amended :
    ∀ (l : LayerBase) (flags : Nat),
    l.mCurrentState = l.mDrawingState →
    l.mCurrentState.active = l.mCurrentState.requested →
    flags &&& eVisibleRegion = 0 →
    (l.doTransaction flags).1 &&& eVisibleRegion = 0 ∧
    (l.doTransaction flags).2.mDrawingState = l.mDrawingState := by
  intro l flags hpc har hf
  have hcur : { l.mCurrentState with active := l.mCurrentState.requested } =
      l.mCurrentState := by
    rw [← har]
  unfold LayerBase.doTransaction
  by_cases hgeo : flags &&& eDontUpdateGeometryState ≠ 0
  · simp [hgeo, hpc, LayerBase.commitTransaction, hf]
  · simp only [hgeo, if_false, ite_false, if_neg, hcur]
    simp [hpc, LayerBase.commitTransaction, hf, hcur]

/-- C3 witness: the amended commit idempotence evaluated on the fresh
sample layer right after creation (pending = committed,
active = requested), with input flags 0. -/
theorem c3_witness :
    (sample.doTransaction 0).1 &&& eVisibleRegion = 0 ∧
    (sample.doTransaction 0).2.mDrawingState = sample.mDrawingState :=
  c3_amended sample 0 (by decide) (by decide) (by decide)

/-! C4 -/

/-- A layer whose committed alpha is 255 but whose pending alpha has
already been mutated to 128. -/
def c4layer : LayerBase := ((LayerBase.mkLayer 10 10 0).setAlpha 128).2

/-- C4 is false as stated in its `setAlpha(128)` instance: on a layer
with committed alpha 255 whose pending alpha is already 128, the call
compares against the pending value and returns `false`, not `true`. -/
theorem c4_counterexample :
    c4layer.mDrawingState.alpha = 255 ∧
    (c4layer.setAlpha 128).1 = false := by
  decide

/-- C4 (amended): no state mutator ever modifies the committed snapshot,
and observers of committed state such as `isVisible` are unchanged by any
mutation; the `setAlpha(128)` instance returns `true` on a layer whose
committed and pending alpha are both 255 (no alpha mutation since the
last commit), with `isVisible` and the committed alpha untouched. -/
theorem c4_amended :
    (∀ (l : LayerBase) (x y : ℚ),
      (l.setPosition x y).2.mDrawingState = l.mDrawingState ∧
      (l.setPosition x y).2.isVisible = l.isVisible) ∧
    (∀ (l : LayerBase) (z : Nat),
      (l.setLayer z).2.mDrawingState = l.mDrawingState ∧
      (l.setLayer z).2.isVisible = l.isVisible) ∧
    (∀ (l : LayerBase) (w h : Nat),
      (l.setSize w h).2.mDrawingState = l.mDrawingState ∧
      (l.setSize w h).2.isVisible = l.isVisible) ∧
    (∀ (l : LayerBase) (a : Nat),
      (l.setAlpha a).2.mDrawingState = l.mDrawingState ∧
      (l.setAlpha a).2.isVisible = l.isVisible) ∧
    (∀ (l : LayerBase) (m : LayerBase.Matrix22),
      (l.setMatrix m).2.mDrawingState = l.mDrawingState ∧
      (l.setMatrix m).2.isVisible = l.isVisible) ∧
    (∀ (l : LayerBase) (r : Region),
      (l.setTransparentRegionHint r).2.mDrawingState = l.mDrawingState ∧
      (l.setTransparentRegionHint r).2.isVisible = l.isVisible) ∧
    (∀ (l : LayerBase) (f m : Nat),
      (l.setFlags f m).2.mDrawingState = l.mDrawingState ∧
      (l.setFlags f m).2.isVisible = l.isVisible) ∧
    (∀ (l : LayerBase) (c : Rect),
      (l.setCrop c).2.mDrawingState = l.mDrawingState ∧
      (l.setCrop c).2.isVisible = l.isVisible) ∧
    (∀ (l : LayerBase) (ls : Nat),
      (l.setLayerStack ls).2.mDrawingState = l.mDrawingState ∧
      (l.setLayerStack ls).2.isVisible = l.isVisible) ∧
    (∀ l : LayerBase, l.mDrawingState.alpha = 255 →
      l.mCurrentState.alpha = 255 →
      (l.setAlpha 128).1 = true ∧
      (l.setAlpha 128).2.isVisible = l.isVisible ∧
      (l.setAlpha 128).2.mDrawingState.alpha = 255) := by
  have base : ∀ (l l' : LayerBase), l'.mDrawingState = l.mDrawingState →
      l'.mDrawingState = l.mDrawingState ∧ l'.isVisible = l.isVisible :=
    fun l l' h => ⟨h, isVisible_ext l l' h⟩
  refine ⟨?_, ?_, ?_, ?_, ?_, ?_, ?_, ?_, ?_, ?_⟩
  · intro l x y
    refine base l _ ?_
    by_cases h : l.mCurrentState.transform.tx = x ∧ l.mCurrentState.transform.ty = y <;>
      simp [LayerBase.setPosition, LayerBase.requestTransaction,
        LayerBase.setTransactionFlags, h]
  · intro l z
    refine base l _ ?_
    by_cases h : l.mCurrentState.z = trunc32 z <;>
      simp [LayerBase.setLayer, LayerBase.requestTransaction,
        LayerBase.setTransactionFlags, h]
  · intro l w h
    refine base l _ ?_
    by_cases hc : l.mCurrentState.requested.w = trunc32 w ∧
        l.mCurrentState.requested.h = trunc32 h <;>
      simp [LayerBase.setSize, LayerBase.requestTransaction,
        LayerBase.setTransactionFlags, hc]
  · intro l a
    refine base l _ ?_
    by_cases h : l.mCurrentState.alpha = trunc8 a <;>
      simp [LayerBase.setAlpha, LayerBase.requestTransaction,
        LayerBase.setTransactionFlags, h]
  · intro l m
    refine base l _ ?_
    simp [LayerBase.setMatrix, LayerBase.requestTransaction,
      LayerBase.setTransactionFlags]
  · intro l r
    refine base l _ ?_
    simp [LayerBase.setTransparentRegionHint, LayerBase.requestTransaction,
      LayerBase.setTransactionFlags]
  · intro l f m
    refine base l _ ?_
    by_cases h : l.mCurrentState.flags =
        (l.mCurrentState.flags &&& (4294967295 ^^^ trunc8 m)) |||
          (trunc8 f &&& trunc8 m)
    · simp [LayerBase.setFlags, ← h]
    · simp only [LayerBase.setFlags, LayerBase.requestTransaction,
        LayerBase.setTransactionFlags]
      rw [if_neg h]
  · intro l c
    refine base l _ ?_
    by_cases h : l.mCurrentState.requested.crop = c <;>
      simp [LayerBase.setCrop, LayerBase.requestTransaction,
        LayerBase.setTransactionFlags, h]
  · intro l ls
    refine base l _ ?_
    by_cases h : l.mCurrentState.layerStack = trunc32 ls <;>
      simp [LayerBase.setLayerStack, LayerBase.requestTransaction,
        LayerBase.setTransactionFlags, h]
  · intro l hd hc
    have hne : ¬(l.mCurrentState.alpha = trunc8 128) := by
      rw [hc]
      decide
    have hdr : (l.setAlpha 128).2.mDrawingState = l.mDrawingState := by
      simp [LayerBase.setAlpha, LayerBase.requestTransaction,
        LayerBase.setTransactionFlags, hne]
    refine ⟨?_, isVisible_ext l _ hdr, ?_⟩
    · simp [LayerBase.setAlpha, hne]
    · rw [hdr, hd]

/-- C4 witness: `setAlpha 128` on the fresh opaque sample layer returns
`true` while `isVisible` and the committed alpha are untouched. -/
theorem c4_witness :
    (sample.setAlpha 128).1 = true ∧
    (sample.setAlpha 128).2.isVisible = sample.isVisible ∧
    (sample.setAlpha 128).2.mDrawingState.alpha = 255 :=
  c4_amended.2.2.2.2.2.2.2.2.2 sample (by decide) (by decide)

/-! C6 -/

/-- C6: when `doTransaction` observes a pending `sequence` different
from the committed one, it sets `mNeedsFiltering` to true exactly when
the pending transform does not preserve axis-aligned rectangles or its
type classification is `SCALE` or higher, sets the visible-region flag,
and marks the content dirty. -/
theorem c6_filtering :
    ∀ (l : LayerBase) (flags : Nat),
    l.mCurrentState.sequence ≠ l.mDrawingState.sequence →
    ((l.doTransaction flags).2.mNeedsFiltering = true ↔
      (l.mCurrentState.transform.preserveRects = false ∨
       SCALE ≤ l.mCurrentState.transform.getType)) ∧
    (l.doTransaction flags).1 &&& eVisibleRegion ≠ 0 ∧
    (l.doTransaction flags).2.contentDirty = true := by
  intro l flags hseq
  unfold LayerBase.doTransaction
  by_cases hgeo : flags &&& eDontUpdateGeometryState ≠ 0 <;>
    simp [hgeo, hseq, LayerBase.commitTransaction, lor_land_self,
      eVisibleRegion, Bool.not_eq_true']

/-- C6 witness: on the sample layer after `setAlpha 128` the pending
sequence (1) differs from the committed one (0); the identity transform
preserves rectangles and classifies below `SCALE`, so filtering stays
off while the visible-region flag and the dirty mark are set. -/
theorem c6_witness :
    ((sampleDirty.doTransaction 0).2.mNeedsFiltering = true ↔
      (sampleDirty.mCurrentState.transform.preserveRects = false ∨
       SCALE ≤ sampleDirty.mCurrentState.transform.getType)) ∧
    (sampleDirty.doTransaction 0).1 &&& eVisibleRegion ≠ 0 ∧
    (sampleDirty.doTransaction 0).2.contentDirty = true :=
  c6_filtering sampleDirty 0 (by decide)

/-! C7 -/

/-- C7: the hardware descriptor built by `setGeometry` enables blending
(premultiplied when the layer uses premultiplied alpha, coverage
otherwise) exactly when the layer is not opaque or its committed alpha
is not 255, and degrades an orientation carrying the invalid-rotation
flag to transform 0 instead of failing. -/
theorem c7_setGeometry :
    ∀ (l : LayerBase) (hw : DisplayDevice),
    ((l.setGeometry hw).blending ≠ HWC_BLENDING_NONE ↔
      (l.mOpaque = false ∨ l.mDrawingState.alpha ≠ 255)) ∧
    ((l.setGeometry hw).blending =
      if l.mOpaque = false ∨ l.mDrawingState.alpha ≠ 255 then
        (if l.mPremultipliedAlpha then HWC_BLENDING_PREMULT
         else HWC_BLENDING_COVERAGE)
      else HWC_BLENDING_NONE) ∧
    ((l.setGeometry hw).transform =
      if l.mDrawingState.transform.getOrientation &&& ROT_INVALID ≠ 0 then 0
      else l.mDrawingState.transform.getOrientation) := by
  intro l hw
  refine ⟨?_, ?_, ?_⟩
  · by_cases hb : l.mOpaque = false ∨ l.mDrawingState.alpha ≠ 255
    · rcases hb with hb | hb <;>
        cases hp : l.mPremultipliedAlpha <;>
        simp [LayerBase.setGeometry, hb, hp, Bool.not_eq_true',
          HWC_BLENDING_NONE, HWC_BLENDING_PREMULT, HWC_BLENDING_COVERAGE]
    · push_neg at hb
      simp [LayerBase.setGeometry, hb.1, hb.2, Bool.not_eq_true']
  · by_cases hb : l.mOpaque = false ∨ l.mDrawingState.alpha ≠ 255
    · rcases hb with hb | hb <;>
        simp [LayerBase.setGeometry, hb, Bool.not_eq_true']
    · push_neg at hb
      simp [LayerBase.setGeometry, hb.1, hb.2, Bool.not_eq_true']
  · by_cases hr : l.mDrawingState.transform.getOrientation &&& ROT_INVALID ≠ 0 <;>
      simp [LayerBase.setGeometry, hr]

/-! C9 -/

/-- C9: `getSurface` succeeds on the first call, marking the handle as
handed out, and a second call hits the fatal assertion (modelled as an
error) instead of returning or recovering. -/
theorem c9_getSurface :
    ∀ st : LayerBaseClient, st.mHasSurface = false →
    ∃ (s : Nat) (st2 : LayerBaseClient),
      st.getSurface = Except.ok (s, st2) ∧
      st2.mHasSurface = true ∧
      st2.getSurface =
        Except.error "LayerBaseClient::getSurface() has already been called" := by
  intro st h
  refine ⟨0, { st with mHasSurface := true, mClientSurfaceBinder := some 0 }, ?_, rfl, ?_⟩ <;>
    simp [LayerBaseClient.getSurface, h]

/-- C9 witness: the handout contract evaluated on a client layer whose
handle has not been handed out yet. -/
theorem c9_witness :
    ∃ (s : Nat) (st2 : LayerBaseClient),
      (LayerBaseClient.mk false none).getSurface = Except.ok (s, st2) ∧
      st2.mHasSurface = true ∧
      st2.getSurface =
        Except.error "LayerBaseClient::getSurface() has already been called" :=
  c9_getSurface (LayerBaseClient.mk false none) (by decide)

/-! C10 -/

/-- C10: `isVisible` holds exactly when the committed flags do not
contain the hidden bit and the committed alpha is nonzero; in particular
a layer with committed alpha 0 is reported invisible even with the
hidden flag clear. -/
theorem c10_isVisible :
    ∀ l : LayerBase,
    l.isVisible = true ↔
      (l.mDrawingState.flags &&& eLayerHidden = 0 ∧
       l.mDrawingState.alpha ≠ 0) := by
  intro l
  simp [LayerBase.isVisible]

/-! C8 -/

/-- C8: feeding N frames through `onFrameAvailable` with no intervening
latch raises the pending counter by exactly N; `latchBuffer` on a
nonzero counter decrements it by exactly one and adopts the newest
produced buffer's metadata (crop, transform, timestamp), discarding the
older buffers; and `latchBuffer` is a no-op returning the empty region
when the counter is zero. -/
theorem c8_latchCounting :
    (∀ (q : FrameQueue) (bs : List Buffer),
      (q.feed bs).mQueuedFrames = q.mQueuedFrames + bs.length) ∧
    (∀ (q : FrameQueue) (b : Buffer) (rest : List Buffer),
      q.mQueuedFrames ≠ 0 → q.produced = b :: rest →
      q.latchBuffer.2.mQueuedFrames = q.mQueuedFrames - 1 ∧
      q.latchBuffer.2.mActiveBuffer = some b ∧
      q.latchBuffer.2.mCurrentCrop = b.crop ∧
      q.latchBuffer.2.mCurrentTransform = b.tbits ∧
      q.latchBuffer.2.mCurrentTimestamp = b.timestamp ∧
      q.latchBuffer.2.produced = []) ∧
    (∀ q : FrameQueue, q.mQueuedFrames = 0 →
      q.latchBuffer = (Region.empty, q)) := by
  refine ⟨?_, ?_, ?_⟩
  · intro q bs
    induction bs generalizing q with
    | nil => simp [FrameQueue.feed]
    | cons b bs ih =>
      simp [FrameQueue.feed, FrameQueue.onFrameAvailable, ih]
      omega
  · intro q b rest hn hp
    simp [FrameQueue.latchBuffer, hn, hp]
  · intro q h
    simp [FrameQueue.latchBuffer, h]

/-- Two concrete buffers for the C8 witness. -/
def c8buf1 : Buffer := ⟨1, ⟨0, 0, 4, 4⟩, 0, 10⟩

/-- The newest buffer produced in the C8 witness scenario. -/
def c8buf2 : Buffer := ⟨2, ⟨0, 0, 8, 8⟩, 4, 20⟩

/-- The frame queue after two productions with no intervening latch. -/
def c8queue : FrameQueue := FrameQueue.init.feed [c8buf1, c8buf2]

/-- C8 witness: after producing two frames the counter is 2, and one
latch adopts the newest buffer's metadata while dropping the older one. -/
theorem c8_witness :
    c8queue.latchBuffer.2.mQueuedFrames = c8queue.mQueuedFrames - 1 ∧
    c8queue.latchBuffer.2.mActiveBuffer = some c8buf2 ∧
    c8queue.latchBuffer.2.mCurrentCrop = c8buf2.crop ∧
    c8queue.latchBuffer.2.mCurrentTransform = c8buf2.tbits ∧
    c8queue.latchBuffer.2.mCurrentTimestamp = c8buf2.timestamp ∧
    c8queue.latchBuffer.2.produced = [] :=
  c8_latchCounting.2.1 c8queue c8buf2 [c8buf1] (by decide) (by decide)

/-! C5 -/

/-- The clamping step of `computeCrop` confines the clipped window crop
to the window's own bounds. -/
theorem clippedWindowCrop_bounds (s : State) (viewport : Rect) :
    0 ≤ (clippedWindowCrop s viewport).left ∧
    (clippedWindowCrop s viewport).right ≤ (s.active.w : Int) ∧
    0 ≤ (clippedWindowCrop s viewport).top ∧
    (clippedWindowCrop s viewport).bottom ≤ (s.active.h : Int) := by
  refine ⟨?_, ?_, ?_, ?_⟩ <;>
    simp only [clippedWindowCrop, Rect.intersectRect, Rect.ofSize] <;> omega

/-- XORing the two flip bits does not change the rotation bit. -/
theorem xor_flips_rot_bit (n : Nat) :
    (n ^^^ (TRANSFORM_FLIP_V ||| TRANSFORM_FLIP_H)) &&& TRANSFORM_ROT_90 =
      n &&& TRANSFORM_ROT_90 := by
  apply Nat.eq_of_testBit_eq
  intro i
  simp only [Nat.testBit_and, Nat.testBit_xor, Nat.testBit_or,
    TRANSFORM_FLIP_V, TRANSFORM_FLIP_H, TRANSFORM_ROT_90]
  match i with
  | 0 =>
    have h4 : Nat.testBit 4 0 = false := rfl
    simp [h4]
  | 1 =>
    have h4 : Nat.testBit 4 1 = false := rfl
    simp [h4]
  | 2 =>
    have h4 : Nat.testBit 4 2 = true := rfl
    have h2 : Nat.testBit 2 2 = false := rfl
    have h1 : Nat.testBit 1 2 = false := rfl
    simp [h4, h2, h1]
  | (i + 3) =>
    have h1 : Nat.testBit 4 (i + 3) = false :=
      Nat.testBit_lt_two_pow (by
        calc (4 : Nat) < 2 ^ 3 := by norm_num
        _ ≤ 2 ^ (i + 3) := Nat.pow_le_pow_right (by norm_num) (by omega))
    simp [h1]

/-- HAL flips and 90°-rotation keep a rectangle confined to the window:
edges stay within `[0, w] × [0, h]`, swapped when the rotation bit is
set. -/
theorem transformHal_bounds (r : Rect) (x : Nat) (w h : Int)
    (h1 : 0 ≤ r.left) (h2 : r.left ≤ r.right) (h3 : r.right ≤ w)
    (h4 : 0 ≤ r.top) (h5 : r.top ≤ r.bottom) (h6 : r.bottom ≤ h) :
    0 ≤ (r.transformHal x w h).left ∧
    (r.transformHal x w h).left ≤ (r.transformHal x w h).right ∧
    (r.transformHal x w h).right ≤
      (if x &&& TRANSFORM_ROT_90 ≠ 0 then h else w) ∧
    0 ≤ (r.transformHal x w h).top ∧
    (r.transformHal x w h).top ≤ (r.transformHal x w h).bottom ∧
    (r.transformHal x w h).bottom ≤
      (if x &&& TRANSFORM_ROT_90 ≠ 0 then w else h) := by
  unfold Rect.transformHal
  by_cases hH : x &&& TRANSFORM_FLIP_H = 0 <;>
    by_cases hV : x &&& TRANSFORM_FLIP_V = 0 <;>
    by_cases hR : x &&& TRANSFORM_ROT_90 = 0 <;>
    simp [hH, hV, hR] <;> omega

/-- A rectangle grown inward by four nonnegative insets is contained in
the original. -/
theorem containedIn_shrunk (cc : Rect) (i1 i2 i3 i4 : Int)
    (p1 : 0 ≤ i1) (p2 : 0 ≤ i2) (p3 : 0 ≤ i3) (p4 : 0 ≤ i4) :
    (Rect.mk (cc.left + i1) (cc.top + i2) (cc.right - i3)
      (cc.bottom - i4)).containedIn cc := by
  refine ⟨?_, ?_, ?_, ?_⟩ <;> simp <;> omega

/-- The inset step of `computeCrop` always returns a sub-rectangle of
the content crop when its clipped window crop is non-empty and confined
to the window bounds. -/
theorem cropInsetStep_containedIn (s : State) (cc : Rect) (ct : Nat) (ac : Rect)
    (hcw : 0 ≤ cc.width) (hch : 0 ≤ cc.height)
    (hb1 : 0 ≤ ac.left) (hb2 : ac.right ≤ (s.active.w : Int))
    (hb3 : 0 ≤ ac.top) (hb4 : ac.bottom ≤ (s.active.h : Int))
    (hne1 : ac.left < ac.right) (hne2 : ac.top < ac.bottom) :
    (cropInsetStep s cc ct ac).containedIn cc := by
  have hw0 : (0 : Int) < (s.active.w : Int) := by omega
  have hh0 : (0 : Int) < (s.active.h : Int) := by omega
  have hcwq : (0 : ℚ) ≤ (cc.width : ℚ) := by exact_mod_cast hcw
  have hchq : (0 : ℚ) ≤ (cc.height : ℚ) := by exact_mod_cast hch
  by_cases hrot : ct &&& TRANSFORM_ROT_90 = 0
  · have hbounds := transformHal_bounds ac ct s.active.w s.active.h
      hb1 (le_of_lt hne1) hb2 hb3 (le_of_lt hne2) hb4
    simp only [hrot, ne_eq, not_true_eq_false, ite_false] at hbounds
    obtain ⟨w1, _, w3, w4, _, w6⟩ := hbounds
    have hwq : (0 : ℚ) ≤ ((s.active.w : Int) : ℚ) := by exact_mod_cast le_of_lt hw0
    have hhq : (0 : ℚ) ≤ ((s.active.h : Int) : ℚ) := by exact_mod_cast le_of_lt hh0
    simp only [cropInsetStep, hrot, ne_eq, not_true_eq_false, ite_false]
    refine containedIn_shrunk cc _ _ _ _ ?_ ?_ ?_ ?_ <;>
      refine Int.ceil_nonneg (mul_nonneg ?_ (div_nonneg ?_ ?_)) <;>
      first
        | exact_mod_cast w1
        | exact_mod_cast w4
        | exact_mod_cast (by omega : (0 : Int) ≤ (s.active.w : Int) - (ac.transformHal ct s.active.w s.active.h).right)
        | exact_mod_cast (by omega : (0 : Int) ≤ (s.active.h : Int) - (ac.transformHal ct s.active.w s.active.h).bottom)
        | exact hcwq
        | exact hchq
        | exact hwq
        | exact hhq
  · have hx : (ct ^^^ (TRANSFORM_FLIP_V ||| TRANSFORM_FLIP_H)) &&&
        TRANSFORM_ROT_90 = ct &&& TRANSFORM_ROT_90 := xor_flips_rot_bit ct
    have hbounds := transformHal_bounds ac
      (ct ^^^ (TRANSFORM_FLIP_V ||| TRANSFORM_FLIP_H)) s.active.w s.active.h
      hb1 (le_of_lt hne1) hb2 hb3 (le_of_lt hne2) hb4
    simp only [hx, hrot, ne_eq, not_false_eq_true, ite_true] at hbounds
    obtain ⟨w1, _, w3, w4, _, w6⟩ := hbounds
    have hwq : (0 : ℚ) ≤ ((s.active.w : Int) : ℚ) := by exact_mod_cast le_of_lt hw0
    have hhq : (0 : ℚ) ≤ ((s.active.h : Int) : ℚ) := by exact_mod_cast le_of_lt hh0
    simp only [cropInsetStep, hrot, ne_eq, not_false_eq_true, ite_true]
    refine containedIn_shrunk cc _ _ _ _ ?_ ?_ ?_ ?_ <;>
      refine Int.ceil_nonneg (mul_nonneg ?_ (div_nonneg ?_ ?_)) <;>
      first
        | exact_mod_cast w1
        | exact_mod_cast w4
        | exact_mod_cast (by omega : (0 : Int) ≤ (s.active.h : Int) -
            (ac.transformHal (ct ^^^ (TRANSFORM_FLIP_V ||| TRANSFORM_FLIP_H))
              s.active.w s.active.h).right)
        | exact_mod_cast (by omega : (0 : Int) ≤ (s.active.w : Int) -
            (ac.transformHal (ct ^^^ (TRANSFORM_FLIP_V ||| TRANSFORM_FLIP_H))
              s.active.w s.active.h).bottom)
        | exact hcwq
        | exact hchq
        | exact hwq
        | exact hhq

/-- C5: for every committed state, content transform and display
viewport, `computeCrop` returns a (coordinate-wise) sub-rectangle of the
content crop, and returns the content crop unmodified whenever the
clipped window crop — the active crop transformed to layer-stack space,
intersected with the viewport, transformed back and clamped to the
window bounds — is empty. (Edges are integers by construction, as in
the `Rect` type.) -/
theorem c5_computeCrop :
    ∀ (s : State) (contentCrop : Rect) (ct : Nat) (viewport : Rect),
    0 ≤ contentCrop.width → 0 ≤ contentCrop.height →
    (computeCropAux s contentCrop ct viewport).containedIn contentCrop ∧
    ((clippedWindowCrop s viewport).isEmpty = true →
      computeCropAux s contentCrop ct viewport = contentCrop) := by
  intro s cc ct vp hcw hch
  by_cases hempty : (clippedWindowCrop s vp).isEmpty = true
  · constructor
    · simp [computeCropAux, hempty, Rect.containedIn]
    · intro _
      simp [computeCropAux, hempty]
  · refine ⟨?_, fun hh => absurd hh hempty⟩
    obtain ⟨b1, b2, b3, b4⟩ := clippedWindowCrop_bounds s vp
    have hprop : ¬((clippedWindowCrop s vp).width ≤ 0 ∨
        (clippedWindowCrop s vp).height ≤ 0) := by
      simpa [Rect.isEmpty] using hempty
    push_neg at hprop
    have hne1 : (clippedWindowCrop s vp).left < (clippedWindowCrop s vp).right := by
      have := hprop.1
      simp only [Rect.width] at this
      omega
    have hne2 : (clippedWindowCrop s vp).top < (clippedWindowCrop s vp).bottom := by
      have := hprop.2
      simp only [Rect.height] at this
      omega
    simp only [computeCropAux]
    rw [if_neg hempty]
    exact cropInsetStep_containedIn s cc ct _ hcw hch b1 b2 b3 b4 hne1 hne2

/-- The committed state used by the C5 witness: a freshly created 64×64
layer. -/
def c5state : State := (LayerBase.mkLayer 64 64 0).mDrawingState

/-- C5 witness: a 64×64 layer with identity transform, invalid (unset)
active crop and a 32×32 viewport satisfies the hypotheses of the
containment theorem. -/
theorem c5_witness :
    0 ≤ (Rect.ofSize 64 64).width ∧ 0 ≤ (Rect.ofSize 64 64).height ∧
    ((computeCropAux c5state (Rect.ofSize 64 64) 0
        (Rect.ofSize 32 32)).containedIn (Rect.ofSize 64 64) ∧
     ((clippedWindowCrop c5state (Rect.ofSize 32 32)).isEmpty = true →
       computeCropAux c5state (Rect.ofSize 64 64) 0
         (Rect.ofSize 32 32) = Rect.ofSize 64 64)) :=
  ⟨by decide, by decide,
   c5_computeCrop c5state (Rect.ofSize 64 64) 0 (Rect.ofSize 32 32)
     (by decide) (by decide)⟩

end SurfaceFlinger
